import Mathlib

/-!
Verification development for the pylogop dispatch engine.

The definitions below are a shallow embedding of the current engine iteration
(`src/logop/logging.py`, together with `utils.py`, `typeins.py`, `stream.py`,
`constants.py`, `_state.py`).  Python's mutable objects become explicit state
records, raised exceptions become `Except` results, and the synchronous
delivery loop becomes a structurally recursive function.  The older engine
iteration (`src/logop/logging_main.py`) is embedded separately, in namespace
`LoggingMain`, only where a claim compares the two.
-/

namespace Logop

/-! ## constants.py -/

def ALL : Int := -128
def TRACE : Int := -64
def DEBUG : Int := -32
def INFO : Int := 0
def WARN : Int := 32
def WARNING : Int := 32
def ERROR : Int := 64
def SEVERE : Int := 96
def CRITICAL : Int := 96
def FATAL : Int := 112
def OFF : Int := 127

def STANDARD : String := "standard"

def IDENT_EMPTY : Int := -1

def SECURE_FORMAT_MAXIMUM_NUMBER_OF_CORRECTIONS : Nat := 32

/-- The literal character U+007B (opening curly brace). -/
def lbrace : String := "\x7b"

/-- The literal character U+007D (closing curly brace). -/
def rbrace : String := "\x7d"

/-- FORMAT_DEFAULT from constants.py (written with explicit brace characters). -/
def FORMAT_DEFAULT : String :=
  "[" ++ lbrace ++ "date" ++ rbrace ++ " " ++ lbrace ++ "time" ++ rbrace ++ "] [" ++
  lbrace ++ "thread" ++ rbrace ++ "/" ++ lbrace ++ "level_name" ++ rbrace ++ "] " ++
  lbrace ++ "message" ++ rbrace

/-! ## exceptions.py (and the two extra errors of the older iteration) -/

inductive LogopError where
  | logLevelInvalid
  | logLevelNotExists
  | logLevelAliasNotExists
  | streamVerificationFailed
  | streamAssociationFailed
  | loggingIsClosed
  | outputStreamNotExist
  | logFormatInvalid
  | typeError
  deriving DecidableEq, Repr

/-! ## typeins.py : LevelDetails, and _state.py : level_map -/

structure LevelDetails where
  level : Int
  alias' : String
  name : String
  deriving DecidableEq, Repr

/-- The nine built-in levels seeded in `_state.level_map`, in insertion order. -/
def level_map : List (String × LevelDetails) :=
  [ ("trace", ⟨TRACE, "trace", "TRACE"⟩)
  , ("debug", ⟨DEBUG, "debug", "DEBUG"⟩)
  , ("info", ⟨INFO, "info", "INFO"⟩)
  , ("warn", ⟨WARN, "warn", "WARN"⟩)
  , ("warning", ⟨WARNING, "warning", "WARNING"⟩)
  , ("error", ⟨ERROR, "error", "ERROR"⟩)
  , ("severe", ⟨SEVERE, "severe", "SEVERE"⟩)
  , ("critical", ⟨CRITICAL, "critical", "CRITICAL"⟩)
  , ("fatal", ⟨FATAL, "fatal", "FATAL"⟩) ]

/-- A `Union[str, int]` argument. -/
inductive StrOrInt where
  | str (s : String)
  | int (n : Int)
  deriving DecidableEq, Repr

/-- utils.level_details: alias lookup, or first entry with a matching numeric
value (dict iteration order), else the corresponding error. -/
def level_details (lm : List (String × LevelDetails)) : StrOrInt → Except LogopError LevelDetails
  | .str s =>
      match lm.lookup s with
      | some d => .ok d
      | none => .error .logLevelAliasNotExists
  | .int n =>
      match lm.find? (fun p => p.2.level == n) with
      | some p => .ok p.2
      | none => .error .logLevelNotExists

/-! ## A fragment of Python's value universe.

`Logging.call` threads a `log_mark` whose default is the `Ellipsis` object, and
`Logging.__try_call_stream` compares a sink's return value against the integer
`1`; both need `None`, `Ellipsis`, integers and strings to be distinguishable
values. -/

inductive PyVal where
  | none
  | ellipsis
  | int (n : Int)
  | str (s : String)
  deriving DecidableEq, Repr

/-- `str(value)` as used when a record field is substituted into a format. -/
def pyValStr : PyVal → String
  | .none => "None"
  | .ellipsis => "Ellipsis"
  | .int n => toString n
  | .str s => s

/-! ## stream.py : output streams.

A sink's `call` body is external to the engine (it writes to a console or
file); the engine only observes whether it raises or what it returns, so that
behaviour is abstracted into `StreamBehavior`.  `sid` stands for Python object
identity (`is`). -/

inductive StreamBehavior where
  | raises
  | returns (v : PyVal)
  deriving DecidableEq, Repr

structure OutputStream where
  sid : Nat
  type : String
  ident : Int
  associated : Bool
  exception_count : Nat
  behavior : StreamBehavior
  deriving DecidableEq, Repr

/-- utils.try_execute applied to `stream.call` with fallback value `1`:
the fallback `1` if the body raises, otherwise the returned value. -/
def stream_call_result (s : OutputStream) : PyVal :=
  match s.behavior with
  | .raises => .int 1
  | .returns v => v

/-! ## typeins.py : StateSource, LogDetails, LogUnit -/

/-- The four strftime renderings taken from `datetime.now()`. -/
structure DateTimeInfo where
  date : String
  time : String
  milli : String
  micro : String
  deriving DecidableEq, Repr

/-- The data read from the resolved caller frame. -/
structure FrameInfo where
  module : String
  filepath : String
  function : String
  line : Int
  deriving DecidableEq, Repr

/-- Everything `Logging.call` captures from the runtime environment (clock,
frame walk, thread and process identity).  `relpath` is the result of
`os.path.relpath(filepath)`, which depends on the working directory and may
raise; `Option.none` models the exception branch. -/
structure RuntimeCtx where
  datetime : DateTimeInfo
  frame : FrameInfo
  thread_name : String
  thread_ident : Int
  process_pid : Int
  relpath : Option String
  deriving DecidableEq, Repr

structure StateSource where
  loglevel : LevelDetails
  datetime : DateTimeInfo
  frame : FrameInfo
  thread_name : String
  thread_ident : Int
  process_pid : Int
  relpath : Option String
  deriving DecidableEq, Repr

structure LogDetails where
  message : String
  mark : PyVal
  level : Int
  level_name : String
  level_alias : String
  date : String
  time : String
  milli : String
  micro : String
  module : String
  filepath : String
  filename : String
  function : String
  line : Int
  file : String
  thread : String
  thread_name : String
  thread_ident : Int
  process : Int
  deriving DecidableEq, Repr

/-- `os.path.basename` on a POSIX path. -/
def os_basename (p : String) : String :=
  (p.splitOn "/").getLastD p

/-- LogDetails.__post_init__: derives every field from the source, and replaces
a `None` mark by the caller frame's module name (an `Ellipsis` mark, the
default that `Logging.call` passes through, is left untouched). -/
def mkLogDetails (source : StateSource) (message : String) (mark : PyVal) : LogDetails :=
  { message := message
  , mark := if mark = PyVal.none then .str source.frame.module else mark
  , level := source.loglevel.level
  , level_name := source.loglevel.name
  , level_alias := source.loglevel.alias'
  , date := source.datetime.date
  , time := source.datetime.time
  , milli := source.datetime.milli
  , micro := source.datetime.micro
  , module := source.frame.module
  , filepath := source.frame.filepath
  , filename := os_basename source.frame.filepath
  , function := source.frame.function
  , line := source.frame.line
  , file := source.relpath.getD source.frame.filepath
  , thread := source.thread_name
  , thread_name := source.thread_name
  , thread_ident := source.thread_ident
  , process := source.process_pid }

structure LogUnit where
  details : LogDetails
  args : List String
  kwargs : List (String × String)
  deriving DecidableEq, Repr

/-! ## logging.py : engine state -/

structure LoggingState where
  level : Int
  log_format : String
  is_paused : Bool
  is_closed : Bool
  is_async : Bool
  list_message : List LogUnit
  list_stream : List OutputStream
  unverified_stream_add : List (Int × OutputStream)
  unverified_stream_del : List (Int × OutputStream)
  atomic_ident : Int
  deriving DecidableEq, Repr

/-- One `stream.call` invocation recorded for observation: which registered
sink was handed which record. -/
structure Delivery where
  stream_ident : Int
  unit : LogUnit
  deriving DecidableEq, Repr

/-- The body of the `for stream in self._list_stream` loop in
`Logging.__try_call_stream`: `try_execute(stream.call, 1, ...)` yields `1`
exactly when the sink raised (or returned the integer 1), and only then
`add_exception_count` is invoked. -/
def try_call_one (s : OutputStream) : OutputStream :=
  if stream_call_result s ≠ PyVal.int 1 then s
  else { s with exception_count := s.exception_count + 1 }

/-- One drained record handed to every registered sink in order, recording the
delivery events. -/
def deliver_unit (streams : List OutputStream) (u : LogUnit) :
    List OutputStream × List Delivery :=
  match streams with
  | [] => ([], [])
  | s :: rest =>
      let r := deliver_unit rest u
      (try_call_one s :: r.1, ⟨s.ident, u⟩ :: r.2)

/-- The `while True` loop of `Logging.__try_call_stream`: pop the oldest
record; skip it when its level is below the drain-time threshold; otherwise
hand it to every registered sink.  The queue argument is the message list at
the start of the loop; the state argument carries threshold, format and
streams. -/
def drain_loop (queue : List LogUnit) (st : LoggingState) :
    LoggingState × List Delivery :=
  match queue with
  | [] => (st, [])
  | u :: rest =>
      if u.details.level < st.level then drain_loop rest st
      else
        let d := deliver_unit st.list_stream u
        let r := drain_loop rest { st with list_stream := d.1 }
        (r.1, d.2 ++ r.2)

/-- Logging.__try_call_stream. -/
def try_call_stream (st : LoggingState) : LoggingState × List Delivery :=
  drain_loop st.list_message { st with list_message := [] }

/-- Logging.__spark: in synchronous mode the queue is drained inline; in
asynchronous mode the worker event is set and the caller returns at once
(deliveries then happen on the worker thread, outside this transition). -/
def spark (st : LoggingState) : LoggingState × List Delivery :=
  if st.is_async then (st, [])
  else try_call_stream st

/-! ## logging.py : engine operations -/

/-- Logging.exist_stdout_stream. -/
def exist_stdout_stream (st : LoggingState) : Bool :=
  st.list_stream.any (fun s => s.type == STANDARD)

/-- Logging.set_level: a string is resolved through `utils.level_details`; an
integer is only range-checked against `ALL ≤ level ≤ OFF`.  There is no closed
check. -/
def set_level (st : LoggingState) (lm : List (String × LevelDetails)) :
    StrOrInt → Except LogopError LoggingState
  | .str s =>
      match level_details lm (.str s) with
      | .ok ld => .ok { st with level := ld.level }
      | .error e => .error e
  | .int n =>
      if ALL ≤ n ∧ n ≤ OFF then .ok { st with level := n }
      else .error .logLevelInvalid

/-- Logging.set_format: beyond the `isinstance(str)` check (statically true
here) the format is stored unconditionally — no placeholder validation and no
closed check. -/
def set_format (st : LoggingState) (log_format : String) : LoggingState :=
  { st with log_format := log_format }

/-- Logging.pause (no closed check, no drain trigger). -/
def pause (st : LoggingState) : LoggingState :=
  { st with is_paused := true }

/-- Logging.unpause: clears the flag, then sparks. -/
def unpause (st : LoggingState) : LoggingState × List Delivery :=
  spark { st with is_paused := false }

/-- Logging.close: raises `LoggingIsClosed` when already closed, otherwise
marks closed (and, in async mode, wakes the worker — invisible here). -/
def close (st : LoggingState) : Except LogopError LoggingState :=
  if st.is_closed then .error .loggingIsClosed
  else .ok { st with is_closed := true }

/-- Logging.clear_message. -/
def clear_message (st : LoggingState) : LoggingState :=
  { st with list_message := [] }

/-- Remove the first occurrence of an element (Python `list.remove`). -/
def remove_first (l : List OutputStream) (s : OutputStream) : List OutputStream :=
  match l with
  | [] => []
  | x :: rest => if x = s then rest else x :: remove_first rest s

/-- Logging.add_stream together with the handshake it triggers
(`StandardOutputStream.associate` calling back into
`Logging.add_stream_verify`), flattened into one state transition:

1. a second standard stream is rejected up front, before an ident is taken
   from the `_state.atomic_ident` counter and before any registry mutation;
2. otherwise a fresh ident is taken, the entry is parked in
   `_unverified_stream_add`, and the stream's `associate` runs: a stream that
   is already associated refuses (`StreamAssociationFailed`, the parked entry
   remains), else `add_stream_verify` matches the parked entry (same object,
   same ident — always true on this inline path), appends the stream to
   `_list_stream` and removes the parked entry, and the stream records its
   ident and association.

The engine-assigned ident starts at `2 ** 15`, so the `ident == IDENT_EMPTY`
re-entry branch of `associate` is unreachable from `add_stream`. -/
def add_stream (st : LoggingState) (s : OutputStream) :
    LoggingState × Except LogopError Int :=
  if s.type = STANDARD ∧ exist_stdout_stream st then
    (st, .error .streamVerificationFailed)
  else
    let ident := st.atomic_ident
    let st1 := { st with
      atomic_ident := st.atomic_ident + 1
      unverified_stream_add := (ident, s) :: st.unverified_stream_add }
    if s.associated ∨ s.ident ≠ IDENT_EMPTY then
      (st1, .error .streamAssociationFailed)
    else
      ({ st1 with
          list_stream := st1.list_stream ++ [{ s with ident := ident, associated := true }]
          unverified_stream_add :=
            st1.unverified_stream_add.filter (fun p => !(p.1 == ident)) },
        .ok ident)

/-- Logging.del_stream together with `disassociate(True)` and
`Logging.del_stream_verify`, flattened: the first registered stream with the
ident is parked in `_unverified_stream_del`, verified (same object, same
ident — always true on this inline path), removed from `_list_stream`, and
the transient parked entry is deleted again. -/
def del_stream (st : LoggingState) (ident : Int) :
    LoggingState × Except LogopError Unit :=
  match st.list_stream.find? (fun s => s.ident == ident) with
  | Option.none => (st, .error .outputStreamNotExist)
  | some s =>
      ({ st with list_stream := remove_first st.list_stream s }, .ok ())

/-! ## logging.py : Logging.call -/

structure CallResult where
  state : LoggingState
  deliveries : List Delivery
  deriving DecidableEq, Repr

/-- The record-construction section of `Logging.call` (timestamp, level
resolution through `utils.level_details` — whose errors propagate to the
caller — frame walk, LogDetails, LogUnit). -/
def build_unit (lm : List (String × LevelDetails)) (ctx : RuntimeCtx)
    (log_level : StrOrInt) (log_message : String) (args : List String)
    (log_mark : PyVal) (kwargs : List (String × String)) :
    Except LogopError LogUnit :=
  match level_details lm log_level with
  | .error e => .error e
  | .ok ld =>
      let source : StateSource :=
        { loglevel := ld, datetime := ctx.datetime, frame := ctx.frame
        , thread_name := ctx.thread_name, thread_ident := ctx.thread_ident
        , process_pid := ctx.process_pid, relpath := ctx.relpath }
      .ok ⟨mkLogDetails source log_message log_mark, args, kwargs⟩

/-- Logging.call.  The Python signature defaults `log_mark` to `Ellipsis`; a
caller that supplies no mark therefore invokes this with
`log_mark = PyVal.ellipsis`.  Sequence: closed check, record construction,
append to the message list, early return when paused, otherwise spark. -/
def call (lm : List (String × LevelDetails)) (ctx : RuntimeCtx)
    (st : LoggingState) (log_level : StrOrInt) (log_message : String)
    (args : List String) (log_mark : PyVal) (kwargs : List (String × String)) :
    Except LogopError CallResult :=
  if st.is_closed then .error .loggingIsClosed
  else
    match build_unit lm ctx log_level log_message args log_mark kwargs with
    | .error e => .error e
    | .ok unit =>
        let st1 := { st with list_message := st.list_message ++ [unit] }
        if st1.is_paused then .ok ⟨st1, []⟩
        else
          let p := spark st1
          .ok ⟨p.1, p.2⟩

/-- The arguments of one `call` invocation (each with its own runtime
context). -/
structure CallArgs where
  ctx : RuntimeCtx
  log_level : StrOrInt
  log_message : String
  args : List String
  log_mark : PyVal
  kwargs : List (String × String)
  deriving DecidableEq, Repr

/-- The record a single `call` invocation would construct. -/
def unit_of_call (lm : List (String × LevelDetails)) (c : CallArgs) :
    Except LogopError LogUnit :=
  build_unit lm c.ctx c.log_level c.log_message c.args c.log_mark c.kwargs

/-- A sequence of `call` invocations, accumulating all deliveries. -/
def call_many (lm : List (String × LevelDetails)) (st : LoggingState) :
    List CallArgs → Except LogopError (LoggingState × List Delivery)
  | [] => .ok (st, [])
  | c :: rest =>
      match call lm c.ctx st c.log_level c.log_message c.args c.log_mark c.kwargs with
      | .error e => .error e
      | .ok r =>
          match call_many lm r.state rest with
          | .error e => .error e
          | .ok p => .ok (p.1, r.deliveries ++ p.2)

/-! ## utils.py : the format renderer.

`secure_format` and `format_log_message` drive Python's `str.format`.
`pyFormat` below models `str.format` on the template language the renderer is
specified over: literal text, doubled-brace escapes, and plain replacement
fields — automatic `\x7b\x7d`, explicit positional `\x7b0\x7d`, and named
`\x7bkey\x7d` — without conversion or format-spec suffixes (a `!conv` or
`:spec` suffix is treated as part of the field name).  As in CPython it
raises `IndexError` for an out-of-range positional field, `KeyError` with the
missing key for an unknown named field, and `ValueError` for a lone or
unterminated brace and for mixing automatic with explicit positional
numbering.  Substituted values are not rescanned. -/

inductive FormatError where
  | indexError
  | keyError (key : String)
  | valueError
  deriving DecidableEq, Repr

/-- Whether the first character list is a leading segment of the second. -/
def leading_segment : List Char → List Char → Bool
  | [], _ => true
  | _ :: _, [] => false
  | p :: ps, c :: cs => p == c && leading_segment ps cs

/-- Whether the first character list occurs contiguously in the second. -/
def occurs_in (pat : List Char) : List Char → Bool
  | [] => leading_segment pat []
  | c :: rest => leading_segment pat (c :: rest) || occurs_in pat rest

/-- Digit string to number (only applied to all-digit field names). -/
def digits_to_nat (s : String) : Nat :=
  s.data.foldl (fun n c => n * 10 + (c.toNat - 48)) 0

/-- Resolve one replacement field name against the arguments, tracking the
automatic-numbering index and whether automatic / explicit positional
numbering has been used. -/
def resolve_field (name : String) (auto : Nat) (usedAuto usedExplicit : Bool)
    (args : List String) (kwargs : List (String × String)) :
    Except FormatError (String × Nat × Bool × Bool) :=
  if name = "" then
    if usedExplicit then .error .valueError
    else
      match args.get? auto with
      | Option.none => .error .indexError
      | some v => .ok (v, auto + 1, true, usedExplicit)
  else if name.data ≠ [] ∧ name.data.all Char.isDigit then
    if usedAuto then .error .valueError
    else
      match args.get? (digits_to_nat name) with
      | Option.none => .error .indexError
      | some v => .ok (v, auto, usedAuto, true)
  else
    match kwargs.lookup name with
    | Option.none => .error (.keyError name)
    | some v => .ok (v, auto, usedAuto, usedExplicit)

/-- The scanner of `str.format`: `acc = Option.none` in literal text,
`acc = some cs` while reading a field name (reversed); `out` accumulates the
output reversed. -/
def pyFormatAux (args : List String) (kwargs : List (String × String)) :
    List Char → Option (List Char) → Nat → Bool → Bool → List Char →
    Except FormatError String
  | [], Option.none, _, _, _, out => .ok (String.mk out.reverse)
  | [], some _, _, _, _, _ => .error .valueError
  | '\x7b' :: '\x7b' :: rest, Option.none, auto, uA, uE, out =>
      pyFormatAux args kwargs rest Option.none auto uA uE ('\x7b' :: out)
  | '\x7b' :: rest, Option.none, auto, uA, uE, out =>
      pyFormatAux args kwargs rest (some []) auto uA uE out
  | '\x7d' :: '\x7d' :: rest, Option.none, auto, uA, uE, out =>
      pyFormatAux args kwargs rest Option.none auto uA uE ('\x7d' :: out)
  | '\x7d' :: _, Option.none, _, _, _, _ => .error .valueError
  | c :: rest, Option.none, auto, uA, uE, out =>
      pyFormatAux args kwargs rest Option.none auto uA uE (c :: out)
  | '\x7d' :: rest, some acc, auto, uA, uE, out =>
      (match resolve_field (String.mk acc.reverse) auto uA uE args kwargs with
      | .error e => .error e
      | .ok r => pyFormatAux args kwargs rest Option.none r.2.1 r.2.2.1 r.2.2.2 (r.1.data.reverse ++ out))
  | '\x7b' :: _, some _, _, _, _, _ => .error .valueError
  | c :: rest, some acc, auto, uA, uE, out =>
      pyFormatAux args kwargs rest (some (c :: acc)) auto uA uE out

/-- `format_spec.format(*args, **kwargs)`. -/
def pyFormat (format_spec : String) (args : List String)
    (kwargs : List (String × String)) : Except FormatError String :=
  pyFormatAux args kwargs format_spec.data Option.none 0 false false []

/-- Python `str.replace`, left to right and non-overlapping, scanned over the
character list with a fuel that starts at the list length (each step consumes
at least one character and one unit of fuel, so the zero-fuel branch is
unreachable); the call sites only pass non-empty patterns. -/
def str_replace_go (pat repl : List Char) : Nat → List Char → List Char
  | 0, s => s
  | _ + 1, [] => []
  | fuel + 1, c :: rest =>
      if pat ≠ [] ∧ leading_segment pat (c :: rest) then
        repl ++ str_replace_go pat repl fuel ((c :: rest).drop pat.length)
      else c :: str_replace_go pat repl fuel rest

def str_replace (s pat repl : String) : String :=
  String.mk (str_replace_go pat.data repl.data s.data.length s.data)

/-- The generic `except` branch of `secure_format`: replace each
`\x7bkey\x7d` by its value in the original template, in dict order, and
return that best partial result. -/
def secure_format_fallback (format_spec : String)
    (format_kwargs : List (String × String)) : String :=
  format_kwargs.foldl
    (fun spec p => str_replace spec (lbrace ++ p.1 ++ rbrace) p.2) format_spec

/-- The `while True` loop of `secure_format`, with the program variable
`count` surfaced in the result.  Each iteration: once `count` exceeds the
correction maximum the deliberate `ValueError` sends it to the fallback;
otherwise the template is formatted; an `IndexError` appends the literal
placeholder `"\x7b\x7d"` to the positional arguments, a `KeyError e` (with
the key recovered via `str(e)[1:-1]`) maps the missing key to the escaped
literal `"\x7bkey\x7d"` — each bumping `count` — and any other error takes
the fallback.  The loop runs at most 34 iterations because `count` grows by
one per iteration until the guard fires; the fuel parameter starts at 34 and
decreases in lockstep (`fuel + count = 34`), so its zero branch is
unreachable from `secure_format`. -/
def secure_format_go :
    Nat → Nat → String → List String → List (String × String) → String × Nat
  | 0, count, format_spec, _, format_kwargs =>
      (secure_format_fallback format_spec format_kwargs, count)
  | fuel + 1, count, format_spec, format_args, format_kwargs =>
      if count > SECURE_FORMAT_MAXIMUM_NUMBER_OF_CORRECTIONS then
        (secure_format_fallback format_spec format_kwargs, count)
      else
        match pyFormat format_spec format_args format_kwargs with
        | .ok result => (result, count)
        | .error .indexError =>
            secure_format_go fuel (count + 1) format_spec
              (format_args ++ [lbrace ++ rbrace]) format_kwargs
        | .error (.keyError key) =>
            secure_format_go fuel (count + 1) format_spec format_args
              (format_kwargs ++ [(key, lbrace ++ key ++ rbrace)])
        | .error .valueError =>
            (secure_format_fallback format_spec format_kwargs, count)

/-- utils.secure_format. -/
def secure_format (format_spec : String) (format_args : List String)
    (format_kwargs : List (String × String)) : String :=
  (secure_format_go 34 0 format_spec format_args format_kwargs).1

/-- `dataclasses.asdict` on a LogDetails, with every value rendered the way
`str.format` substitution renders it (the unpicklable `__source` field has
already been cleared by `__post_init__` and is dropped). -/
def asdict (d : LogDetails) : List (String × String) :=
  [ ("message", d.message)
  , ("mark", pyValStr d.mark)
  , ("level", toString d.level)
  , ("level_name", d.level_name)
  , ("level_alias", d.level_alias)
  , ("date", d.date)
  , ("time", d.time)
  , ("milli", d.milli)
  , ("micro", d.micro)
  , ("module", d.module)
  , ("filepath", d.filepath)
  , ("filename", d.filename)
  , ("function", d.function)
  , ("line", toString d.line)
  , ("file", d.file)
  , ("thread", d.thread)
  , ("thread_name", d.thread_name)
  , ("thread_ident", toString d.thread_ident)
  , ("process", toString d.process) ]

/-- Python `dict.update`: existing keys keep their position with the new
value, new keys are appended. -/
def dict_update (a b : List (String × String)) : List (String × String) :=
  a.map (fun p =>
    match b.lookup p.1 with
    | some v => (p.1, v)
    | Option.none => p) ++
  b.filter (fun q => (a.lookup q.1).isNone)

/-- utils.format_log_message_secure: the detail fields are substituted first,
then the partially rendered content is formatted again with the call-site
arguments (detail fields updated by the keyword arguments), both through the
secure path. -/
def format_log_message_secure (log_format : String) (log_unit : LogUnit) : String :=
  let format_kwargs := asdict log_unit.details
  let content := secure_format log_format [] format_kwargs
  secure_format content log_unit.args (dict_update format_kwargs log_unit.kwargs)

/-- utils.format_log_message: the same two-stage rendering through plain
`str.format`; any failure in either stage falls back to the secure path. -/
def format_log_message (log_format : String) (log_unit : LogUnit) : String :=
  match pyFormat log_format [] (asdict log_unit.details) with
  | .ok content =>
      match pyFormat content log_unit.args
          (dict_update (asdict log_unit.details) log_unit.kwargs) with
      | .ok result => result
      | .error _ => format_log_message_secure log_format log_unit
  | .error _ => format_log_message_secure log_format log_unit

/-! ## logging_main.py : the older engine iteration, where a claim compares
the two `set_format` implementations. -/

/-- Python's `in` on strings (substring containment). -/
def contains_substr (s pat : String) : Bool :=
  occurs_in pat.data s.data

namespace LoggingMain

/-- The configuration fields of logging_main.Logging that `set_format`
touches. -/
structure MainState where
  level : Int
  op_format : String
  is_close : Bool
  deriving DecidableEq, Repr

/-- The literal `"$(.message)"` required by the older iteration. -/
def MESSAGE_PLACEHOLDER : String := "$(.message)"

/-- logging_main.Logging.set_format: closed check, then the `isinstance(str)`
check (statically true here), then `"$(.message)" not in op_format` raises
`LogFormatInvalidError`; only then is the format stored.  The raise happens
before any mutation, so on failure the active format is unchanged. -/
def set_format (st : MainState) (op_format : String) :
    Except LogopError MainState :=
  if st.is_close then .error .loggingIsClosed
  else if contains_substr op_format MESSAGE_PLACEHOLDER = false then
    .error .logFormatInvalid
  else .ok { st with op_format := op_format }

end LoggingMain

/-! ## Concrete fixtures used by witnesses and counterexamples -/

def sampleDT : DateTimeInfo := ⟨"2026-10-12", "12:00:00", "123", "456"⟩

def sampleFrame : FrameInfo := ⟨"__main__", "/app/main.py", "main", 10⟩

def sampleCtx : RuntimeCtx := ⟨sampleDT, sampleFrame, "MainThread", 1, 100, some "main.py"⟩

def src0 : StateSource :=
  ⟨⟨INFO, "info", "INFO"⟩, sampleDT, sampleFrame, "MainThread", 1, 100, some "main.py"⟩

/-- A well-behaved registered standard stream (its `call` returns `None`). -/
def stdStream : OutputStream := ⟨1, STANDARD, 32768, true, 0, .returns PyVal.none⟩

/-- A registered custom stream whose `call` raises on every invocation. -/
def raisingStream : OutputStream := ⟨2, "custom", 32769, true, 0, .raises⟩

/-- A registered custom stream whose `call` returns the integer `1` without
raising. -/
def lyingStream : OutputStream := ⟨4, "custom", 32771, true, 0, .returns (PyVal.int 1)⟩

/-- A fresh, not yet associated standard stream. -/
def stdStream2 : OutputStream := ⟨3, STANDARD, IDENT_EMPTY, false, 0, .returns PyVal.none⟩

/-- An open synchronous engine at threshold INFO with one registered standard
stream and an empty queue. -/
def baseState : LoggingState :=
  { level := INFO, log_format := FORMAT_DEFAULT, is_paused := false
  , is_closed := false, is_async := false, list_message := []
  , list_stream := [stdStream], unverified_stream_add := []
  , unverified_stream_del := [], atomic_ident := 32770 }

/-- The record built by `call` at level debug with message "m" under
`sampleCtx` and the default (`Ellipsis`) mark. -/
def debugUnit : LogUnit :=
  ⟨mkLogDetails ⟨⟨DEBUG, "debug", "DEBUG"⟩, sampleDT, sampleFrame, "MainThread", 1, 100, some "main.py"⟩
    "m" PyVal.ellipsis, [], []⟩

/-- The record built by `call` at level info with message "m" under
`sampleCtx` and the default (`Ellipsis`) mark. -/
def infoUnit : LogUnit :=
  ⟨mkLogDetails src0 "m" PyVal.ellipsis, [], []⟩

/-- The record built by `call` at level info with message "hello" under
`sampleCtx` and the default (`Ellipsis`) mark. -/
def helloUnit : LogUnit :=
  ⟨mkLogDetails src0 "hello" PyVal.ellipsis, [], []⟩

/-- The record built by `call` at level error with message "e" under
`sampleCtx` and the default (`Ellipsis`) mark. -/
def errorUnit : LogUnit :=
  ⟨mkLogDetails ⟨⟨ERROR, "error", "ERROR"⟩, sampleDT, sampleFrame, "MainThread", 1, 100, some "main.py"⟩
    "e" PyVal.ellipsis, [], []⟩

def callInfo : CallArgs := ⟨sampleCtx, .str "info", "m", [], PyVal.ellipsis, []⟩

def callError : CallArgs := ⟨sampleCtx, .str "error", "e", [], PyVal.ellipsis, []⟩

/-! ## Helper lemmas on the delivery loop -/

theorem try_call_one_ident (s : OutputStream) : (try_call_one s).ident = s.ident := by
  unfold try_call_one
  split <;> rfl

theorem deliver_unit_fst (streams : List OutputStream) (u : LogUnit) :
    (deliver_unit streams u).1 = streams.map try_call_one := by
  induction streams with
  | nil => rfl
  | cons s rest ih => simp [deliver_unit, ih]

theorem deliver_unit_snd (streams : List OutputStream) (u : LogUnit) :
    (deliver_unit streams u).2 = streams.map (fun s => Delivery.mk s.ident u) := by
  induction streams with
  | nil => rfl
  | cons s rest ih => simp [deliver_unit, ih]

/-- `drain_loop` only rewrites the stream list of the state: any state
observation insensitive to `list_stream` is preserved. -/
theorem drain_loop_fst_proj {α : Type} (f : LoggingState → α)
    (hf : ∀ st ls, f { st with list_stream := ls } = f st) :
    ∀ (q : List LogUnit) (st : LoggingState), f (drain_loop q st).1 = f st := by
  intro q
  induction q with
  | nil => intro st; rfl
  | cons u rest ih =>
      intro st
      by_cases h : u.details.level < st.level
      · simp only [drain_loop, if_pos h]
        exact ih st
      · simp only [drain_loop, if_neg h]
        exact (ih _).trans (hf st _)

theorem drain_loop_level (q : List LogUnit) (st : LoggingState) :
    (drain_loop q st).1.level = st.level :=
  drain_loop_fst_proj (fun s => s.level) (fun _ _ => rfl) q st

theorem drain_loop_message (q : List LogUnit) (st : LoggingState) :
    (drain_loop q st).1.list_message = st.list_message :=
  drain_loop_fst_proj (fun s => s.list_message) (fun _ _ => rfl) q st

theorem drain_loop_closed (q : List LogUnit) (st : LoggingState) :
    (drain_loop q st).1.is_closed = st.is_closed :=
  drain_loop_fst_proj (fun s => s.is_closed) (fun _ _ => rfl) q st

/-- A record below the drain-time threshold contributes nothing to a drain,
wherever it sits at the end of the queue. -/
theorem drain_loop_append_skip (u : LogUnit) :
    ∀ (q : List LogUnit) (st : LoggingState), u.details.level < st.level →
      drain_loop (q ++ [u]) st = drain_loop q st := by
  intro q
  induction q with
  | nil =>
      intro st h
      simp [drain_loop, h]
  | cons x rest ih =>
      intro st h
      by_cases hx : x.details.level < st.level
      · simp only [List.cons_append, drain_loop, if_pos hx, List.append_eq]
        exact ih st h
      · simp only [List.cons_append, drain_loop, if_neg hx, List.append_eq]
        rw [ih { st with list_stream := (deliver_unit st.list_stream x).1 } h]

theorem try_call_stream_append_skip (st : LoggingState) (u : LogUnit)
    (h : u.details.level < st.level) :
    try_call_stream { st with list_message := st.list_message ++ [u] } =
      try_call_stream st := by
  show drain_loop (st.list_message ++ [u]) { st with list_message := [] } =
    drain_loop st.list_message { st with list_message := [] }
  exact drain_loop_append_skip u st.list_message { st with list_message := [] } h

/-- The fan-out of a queue of records over a fixed sink list, FIFO in the
records and in sink order for each record. -/
def fanout (streams : List OutputStream) : List LogUnit → List Delivery
  | [] => []
  | u :: rest => streams.map (fun s => Delivery.mk s.ident u) ++ fanout streams rest

theorem fanout_map_try_call_one (ls : List OutputStream) (q : List LogUnit) :
    fanout (ls.map try_call_one) q = fanout ls q := by
  induction q with
  | nil => rfl
  | cons u rest ih =>
      simp only [fanout, ih, List.map_map]
      congr 1
      apply List.map_congr_left
      intro s _
      simp [Function.comp, try_call_one_ident]

/-- The records a sequence of `call` invocations would construct, in order. -/
def units_of_calls (lm : List (String × LevelDetails)) :
    List CallArgs → Except LogopError (List LogUnit)
  | [] => .ok []
  | c :: rest =>
      match unit_of_call lm c with
      | .error e => .error e
      | .ok u =>
          match units_of_calls lm rest with
          | .error e => .error e
          | .ok us => .ok (u :: us)

/-- On an open paused engine, `call` enqueues the constructed record and
returns without delivering. -/
theorem call_paused (lm : List (String × LevelDetails)) (ctx : RuntimeCtx)
    (st : LoggingState) (lvl : StrOrInt) (msg : String) (args : List String)
    (mark : PyVal) (kwargs : List (String × String)) (u : LogUnit)
    (hclosed : st.is_closed = false) (hpaused : st.is_paused = true)
    (hbuild : build_unit lm ctx lvl msg args mark kwargs = .ok u) :
    call lm ctx st lvl msg args mark kwargs =
      .ok ⟨{ st with list_message := st.list_message ++ [u] }, []⟩ := by
  simp [call, hclosed, hbuild, hpaused]

/-- On an open paused engine, a sequence of calls enqueues all records in
order and delivers nothing. -/
theorem call_many_paused (lm : List (String × LevelDetails)) :
    ∀ (calls : List CallArgs) (st : LoggingState) (units : List LogUnit),
      st.is_closed = false → st.is_paused = true →
      units_of_calls lm calls = .ok units →
      call_many lm st calls =
        .ok ({ st with list_message := st.list_message ++ units }, []) := by
  intro calls
  induction calls with
  | nil =>
      intro st units _ _ hunits
      simp only [units_of_calls] at hunits
      cases hunits
      simp [call_many]
  | cons c rest ih =>
      intro st units hclosed hpaused hunits
      simp only [units_of_calls] at hunits
      cases hu : unit_of_call lm c with
      | error e => rw [hu] at hunits; cases hunits
      | ok u =>
          rw [hu] at hunits
          cases hus : units_of_calls lm rest with
          | error e => rw [hus] at hunits; cases hunits
          | ok us =>
              rw [hus] at hunits
              cases hunits
              have hc := call_paused lm c.ctx st c.log_level c.log_message c.args
                c.log_mark c.kwargs u hclosed hpaused hu
              have hrest := ih { st with list_message := st.list_message ++ [u] } us
                hclosed hpaused hus
              simp only [call_many, hc, hrest]
              simp [List.append_assoc]

/-- When no queued record is below the drain-time threshold, a drain delivers
every record, oldest first, to every registered sink before considering the
next record. -/
theorem drain_loop_events_all_pass :
    ∀ (q : List LogUnit) (st : LoggingState),
      (∀ u ∈ q, ¬(u.details.level < st.level)) →
      (drain_loop q st).2 = fanout st.list_stream q := by
  intro q
  induction q with
  | nil => intro st _; rfl
  | cons u rest ih =>
      intro st h
      have hu : ¬(u.details.level < st.level) := h u (List.mem_cons_self u rest)
      simp only [drain_loop, if_neg hu, fanout]
      rw [deliver_unit_snd, deliver_unit_fst]
      congr 1
      have hrest : ∀ v ∈ rest, ¬(v.details.level <
          ({ st with list_stream := st.list_stream.map try_call_one } : LoggingState).level) :=
        fun v hv => h v (List.mem_cons_of_mem u hv)
      rw [ih _ hrest]
      exact fanout_map_try_call_one st.list_stream rest

/-! ## Helper lemmas on the secure format loop -/

theorem secure_format_go_ok (fuel count : Nat) (spec : String) (args : List String)
    (kwargs : List (String × String)) (res : String)
    (hc : count ≤ SECURE_FORMAT_MAXIMUM_NUMBER_OF_CORRECTIONS)
    (h : pyFormat spec args kwargs = .ok res) :
    secure_format_go (fuel + 1) count spec args kwargs = (res, count) := by
  simp [secure_format_go, Nat.not_lt.mpr hc, h]

theorem secure_format_go_key (fuel count : Nat) (spec : String) (args : List String)
    (kwargs : List (String × String)) (k : String)
    (hc : count ≤ SECURE_FORMAT_MAXIMUM_NUMBER_OF_CORRECTIONS)
    (h : pyFormat spec args kwargs = .error (.keyError k)) :
    secure_format_go (fuel + 1) count spec args kwargs =
      secure_format_go fuel (count + 1) spec args
        (kwargs ++ [(k, lbrace ++ k ++ rbrace)]) := by
  simp [secure_format_go, Nat.not_lt.mpr hc, h]

theorem secure_format_go_index (fuel count : Nat) (spec : String) (args : List String)
    (kwargs : List (String × String))
    (hc : count ≤ SECURE_FORMAT_MAXIMUM_NUMBER_OF_CORRECTIONS)
    (h : pyFormat spec args kwargs = .error .indexError) :
    secure_format_go (fuel + 1) count spec args kwargs =
      secure_format_go fuel (count + 1) spec (args ++ [lbrace ++ rbrace]) kwargs := by
  simp [secure_format_go, Nat.not_lt.mpr hc, h]

theorem secure_format_go_value (fuel count : Nat) (spec : String) (args : List String)
    (kwargs : List (String × String))
    (hc : count ≤ SECURE_FORMAT_MAXIMUM_NUMBER_OF_CORRECTIONS)
    (h : pyFormat spec args kwargs = .error .valueError) :
    secure_format_go (fuel + 1) count spec args kwargs =
      (secure_format_fallback spec kwargs, count) := by
  simp [secure_format_go, Nat.not_lt.mpr hc, h]

/-- The loop's correction counter never exceeds `max count 33` — corrections
stop once the guard `count > 32` fires. -/
theorem secure_format_go_count_le (fuel : Nat) :
    ∀ (count : Nat) (spec : String) (args : List String)
      (kwargs : List (String × String)),
      (secure_format_go fuel count spec args kwargs).2 ≤ max count 33 := by
  induction fuel with
  | zero =>
      intro count spec args kwargs
      exact le_max_left count 33
  | succ n ih =>
      intro count spec args kwargs
      by_cases hc : count > SECURE_FORMAT_MAXIMUM_NUMBER_OF_CORRECTIONS
      · simp only [secure_format_go, if_pos hc]
        exact le_max_left count 33
      · have hc' : count ≤ 32 := by
          simpa [SECURE_FORMAT_MAXIMUM_NUMBER_OF_CORRECTIONS, Nat.not_lt] using hc
        cases h : pyFormat spec args kwargs with
        | ok res =>
            rw [secure_format_go_ok n count spec args kwargs res hc' h]
            exact le_max_left count 33
        | error e =>
            cases e with
            | indexError =>
                rw [secure_format_go_index n count spec args kwargs hc' h]
                refine le_trans (ih (count + 1) spec _ kwargs) ?_
                have h1 : count + 1 ≤ 33 := by omega
                have h2 : max (count + 1) 33 = 33 := max_eq_right h1
                rw [h2]
                exact le_max_right count 33
            | keyError k =>
                rw [secure_format_go_key n count spec args kwargs k hc' h]
                refine le_trans (ih (count + 1) spec args _) ?_
                have h1 : count + 1 ≤ 33 := by omega
                have h2 : max (count + 1) 33 = 33 := max_eq_right h1
                rw [h2]
                exact le_max_right count 33
            | valueError =>
                rw [secure_format_go_value n count spec args kwargs hc' h]
                exact le_max_left count 33

/-! ## Claim theorems -/

/-- C2: during delivery of a queued record, every registered sink's call is
invoked exactly once with that record, in registry order; a sink whose call
raises has its exception count incremented exactly once for that delivery,
while the other sinks are delivered to unaffected; the delivery function is
total, so no exception reaches the logging caller. -/
theorem C2_sink_fault_isolation (streams : List OutputStream) (u : LogUnit)
    (i : Nat) (s : OutputStream) (hget : streams[i]? = some s) :
    ((deliver_unit streams u).2).length = streams.length ∧
    ((deliver_unit streams u).2)[i]? = some ⟨s.ident, u⟩ ∧
    (s.behavior = .raises →
      ((deliver_unit streams u).1)[i]? =
        some { s with exception_count := s.exception_count + 1 }) ∧
    (∀ v, s.behavior = .returns v → v ≠ .int 1 →
      ((deliver_unit streams u).1)[i]? = some s) := by
  refine ⟨?_, ?_, ?_, ?_⟩
  · rw [deliver_unit_snd]
    exact List.length_map streams _
  · rw [deliver_unit_snd, List.getElem?_map, hget]
    rfl
  · intro hb
    rw [deliver_unit_fst, List.getElem?_map, hget]
    simp [try_call_one, stream_call_result, hb]
  · intro v hb hv
    rw [deliver_unit_fst, List.getElem?_map, hget]
    simp [try_call_one, stream_call_result, hb, hv]

/-- Witness for C2 at a concrete two-sink registry: the raising sink is
invoked and counted once, and the well-behaved sink still receives the same
record. -/
theorem C2_sink_fault_isolation_witness :
    ((deliver_unit [stdStream, raisingStream] debugUnit).2)[1]? =
      some ⟨raisingStream.ident, debugUnit⟩ ∧
    ((deliver_unit [stdStream, raisingStream] debugUnit).1)[1]? =
      some { raisingStream with exception_count := 1 } ∧
    ((deliver_unit [stdStream, raisingStream] debugUnit).2)[0]? =
      some ⟨stdStream.ident, debugUnit⟩ ∧
    ((deliver_unit [stdStream, raisingStream] debugUnit).1)[0]? = some stdStream :=
  ⟨(C2_sink_fault_isolation [stdStream, raisingStream] debugUnit 1 raisingStream rfl).2.1,
   (C2_sink_fault_isolation [stdStream, raisingStream] debugUnit 1 raisingStream rfl).2.2.1 rfl,
   (C2_sink_fault_isolation [stdStream, raisingStream] debugUnit 0 stdStream rfl).2.1,
   (C2_sink_fault_isolation [stdStream, raisingStream] debugUnit 0 stdStream rfl).2.2.2
     PyVal.none rfl (by decide)⟩

/-- C10: the delivery loop decides sink failure by comparing the value of
`try_execute(stream.call, 1, ...)` against the sentinel `1`: a sink whose
call returns the integer `1` without raising is counted as failed on every
delivery (a false positive), a sink returning any other value (such as
`None`) is not, and a raising sink is counted through the same comparison. -/
theorem C10_sentinel_comparison (streams : List OutputStream) (u : LogUnit)
    (i : Nat) (s : OutputStream) (hget : streams[i]? = some s) :
    (s.behavior = .returns (.int 1) →
      ((deliver_unit streams u).1)[i]? =
        some { s with exception_count := s.exception_count + 1 }) ∧
    (s.behavior = .returns PyVal.none →
      ((deliver_unit streams u).1)[i]? = some s) ∧
    (∀ v, s.behavior = .returns v → v ≠ .int 1 →
      ((deliver_unit streams u).1)[i]? = some s) ∧
    (s.behavior = .raises →
      ((deliver_unit streams u).1)[i]? =
        some { s with exception_count := s.exception_count + 1 }) := by
  refine ⟨?_, ?_, ?_, ?_⟩
  · intro hb
    rw [deliver_unit_fst, List.getElem?_map, hget]
    simp [try_call_one, stream_call_result, hb]
  · intro hb
    rw [deliver_unit_fst, List.getElem?_map, hget]
    simp [try_call_one, stream_call_result, hb]
  · intro v hb hv
    rw [deliver_unit_fst, List.getElem?_map, hget]
    simp [try_call_one, stream_call_result, hb, hv]
  · intro hb
    rw [deliver_unit_fst, List.getElem?_map, hget]
    simp [try_call_one, stream_call_result, hb]

/-- Witness for C10 at a concrete registry: the sink returning the integer
`1` is falsely counted on delivery, the sink returning `None` is not. -/
theorem C10_sentinel_comparison_witness :
    ((deliver_unit [lyingStream, stdStream] infoUnit).1)[0]? =
      some { lyingStream with exception_count := 1 } ∧
    ((deliver_unit [lyingStream, stdStream] infoUnit).1)[1]? = some stdStream :=
  ⟨(C10_sentinel_comparison [lyingStream, stdStream] infoUnit 0 lyingStream rfl).1 rfl,
   (C10_sentinel_comparison [lyingStream, stdStream] infoUnit 1 stdStream rfl).2.1 rfl⟩

/-- C6: registering a second standard-kind stream fails with
`StreamVerificationFailed` and returns the engine state exactly as it was —
no registry entry, no parked handshake entry, and no ident consumed from the
atomic counter. -/
theorem C6_duplicate_standard_rejected (st : LoggingState) (s : OutputStream)
    (htype : s.type = STANDARD) (hex : exist_stdout_stream st = true) :
    add_stream st s = (st, .error .streamVerificationFailed) := by
  simp [add_stream, htype, hex]

/-- Witness for C6: a second standard stream against the engine that already
holds one. -/
theorem C6_duplicate_standard_rejected_witness :
    add_stream baseState stdStream2 = (baseState, .error .streamVerificationFailed) :=
  C6_duplicate_standard_rejected baseState stdStream2 rfl (by decide)

/-- C8 counterexample: on the current engine, `set_format` accepts the
template "plain" even though it lacks the message placeholder, installing it
as the active format instead of failing with a format-invalid error. -/
theorem C8_counterexample :
    contains_substr "plain" (lbrace ++ "message" ++ rbrace) = false ∧
    set_format baseState "plain" = { baseState with log_format := "plain" } ∧
    (set_format baseState "plain").log_format ≠ baseState.log_format := by
  refine ⟨by decide, rfl, by decide⟩

/-- C8 amended: the current engine's `set_format` stores any string without
placeholder validation; the set-time validation the claim describes exists
only in the older iteration (`logging_main.py`), whose `set_format` raises
`LogFormatInvalidError` when `"$(.message)"` is absent — before any mutation,
so the active format is unchanged — and accepts the template otherwise; the
current render path performs no such validation either (a template without
the message placeholder renders without error). -/
theorem C8_amended_set_format_validation (st : LoggingState) (f : String)
    (ms : LoggingMain.MainState) (g : String) :
    set_format st f = { st with log_format := f } ∧
    (ms.is_close = false →
      contains_substr g LoggingMain.MESSAGE_PLACEHOLDER = false →
      LoggingMain.set_format ms g = .error .logFormatInvalid) ∧
    (ms.is_close = false →
      contains_substr g LoggingMain.MESSAGE_PLACEHOLDER = true →
      LoggingMain.set_format ms g = .ok { ms with op_format := g }) ∧
    (∀ u, format_log_message "plain" u = "plain") := by
  refine ⟨rfl, ?_, ?_, fun u => rfl⟩
  · intro hclose habsent
    simp [LoggingMain.set_format, hclose, habsent]
  · intro hclose hpresent
    simp [LoggingMain.set_format, hclose, hpresent]

/-- Witness for C8 amended: concrete old-engine states accepting and
rejecting, and the current engine accepting a placeholder-less template. -/
theorem C8_amended_set_format_validation_witness :
    set_format baseState "xyz" = { baseState with log_format := "xyz" } ∧
    LoggingMain.set_format ⟨0, "$(.message)", false⟩ "xyz" = .error .logFormatInvalid ∧
    LoggingMain.set_format ⟨0, "$(.message)", false⟩ "a $(.message) b" =
      .ok ⟨0, "a $(.message) b", false⟩ ∧
    format_log_message "plain" helloUnit = "plain" :=
  ⟨(C8_amended_set_format_validation baseState "xyz" ⟨0, "$(.message)", false⟩ "xyz").1,
   (C8_amended_set_format_validation baseState "xyz" ⟨0, "$(.message)", false⟩ "xyz").2.1
     rfl (by decide),
   (C8_amended_set_format_validation baseState "xyz" ⟨0, "$(.message)", false⟩
     "a $(.message) b").2.2.1 rfl (by decide),
   (C8_amended_set_format_validation baseState "xyz" ⟨0, "$(.message)", false⟩ "xyz").2.2.2
     helloUnit⟩

/-- C9: evaluation of the code at the failing input.  A `call` that supplies
no mark passes the signature default `Ellipsis` through to the record, and
`LogDetails.__post_init__` replaces only a `None` mark by the caller module
name — so the record's mark is `Ellipsis`, not the module name `"__main__"`
the defaulting logic (and the spec) intends; an explicitly supplied string
mark is kept, and a `None` mark does get the module name. -/
theorem C9_default_mark_bug :
    call level_map sampleCtx (pause baseState) (.str "info") "hello" [] PyVal.ellipsis [] =
      .ok ⟨{ pause baseState with list_message := [helloUnit] }, []⟩ ∧
    helloUnit.details.mark = PyVal.ellipsis ∧
    helloUnit.details.module = "__main__" ∧
    PyVal.ellipsis ≠ PyVal.str "__main__" ∧
    (mkLogDetails src0 "hello" PyVal.none).mark = PyVal.str "__main__" ∧
    (mkLogDetails src0 "hello" (PyVal.str "tag")).mark = PyVal.str "tag" := by
  refine ⟨rfl, rfl, rfl, by decide, by decide, by decide⟩

/-- C1 counterexample: a below-threshold `call` on an open (paused) engine is
not a silent no-op — the record is built and enqueued (here the queue goes
from empty to one element). -/
theorem C1_counterexample :
    (pause baseState).is_closed = false ∧
    level_details level_map (.str "debug") = .ok ⟨DEBUG, "debug", "DEBUG"⟩ ∧
    DEBUG < (pause baseState).level ∧
    call level_map sampleCtx (pause baseState) (.str "debug") "m" [] PyVal.ellipsis [] =
      .ok ⟨{ pause baseState with list_message := [debugUnit] }, []⟩ ∧
    ({ pause baseState with list_message := [debugUnit] } : LoggingState).list_message ≠ [] := by
  refine ⟨rfl, rfl, by decide, rfl, by decide⟩

/-- C1 amended: a `call` whose resolved level is strictly below the current
threshold still builds the record and appends it to the queue (visible while
paused); no sink is ever invoked for it — the drain-time threshold check
skips it, so an unpaused synchronous call produces exactly the state and
deliveries of draining the pre-existing queue, and with an empty queue that
is zero deliveries and untouched sinks. -/
theorem C1_below_threshold_amended (lm : List (String × LevelDetails))
    (ctx : RuntimeCtx) (st : LoggingState) (lvl : StrOrInt) (msg : String)
    (args : List String) (mark : PyVal) (kwargs : List (String × String))
    (u : LogUnit) (hclosed : st.is_closed = false)
    (hbuild : build_unit lm ctx lvl msg args mark kwargs = .ok u)
    (hlt : u.details.level < st.level) :
    (st.is_paused = true →
      call lm ctx st lvl msg args mark kwargs =
        .ok ⟨{ st with list_message := st.list_message ++ [u] }, []⟩) ∧
    (st.is_paused = false → st.is_async = false →
      call lm ctx st lvl msg args mark kwargs =
        .ok ⟨(try_call_stream st).1, (try_call_stream st).2⟩) ∧
    (st.is_paused = false → st.is_async = false → st.list_message = [] →
      call lm ctx st lvl msg args mark kwargs =
        .ok ⟨{ st with list_message := [] }, []⟩) := by
  have hmain : st.is_paused = false → st.is_async = false →
      call lm ctx st lvl msg args mark kwargs =
        .ok ⟨(try_call_stream st).1, (try_call_stream st).2⟩ := by
    intro hp ha
    have h1 : call lm ctx st lvl msg args mark kwargs =
        .ok ⟨(spark { st with list_message := st.list_message ++ [u] }).1,
             (spark { st with list_message := st.list_message ++ [u] }).2⟩ := by
      simp [call, hclosed, hbuild, hp]
    rw [h1]
    have h2 : spark { st with list_message := st.list_message ++ [u] } =
        try_call_stream { st with list_message := st.list_message ++ [u] } := by
      simp [spark, ha]
    rw [h2, try_call_stream_append_skip st u hlt]
  refine ⟨?_, hmain, ?_⟩
  · intro hp
    exact call_paused lm ctx st lvl msg args mark kwargs u hclosed hp hbuild
  · intro hp ha hq
    rw [hmain hp ha]
    have h3 : try_call_stream st = ({ st with list_message := [] }, []) := by
      unfold try_call_stream
      rw [hq]
      rfl
    rw [h3]

/-- Witness for C1 amended: the concrete below-threshold debug call is
enqueued on the paused engine, and delivers nothing (sinks untouched) on the
unpaused one. -/
theorem C1_below_threshold_amended_witness :
    call level_map sampleCtx baseState (.str "debug") "m" [] PyVal.ellipsis [] =
      .ok ⟨{ baseState with list_message := [] }, []⟩ ∧
    call level_map sampleCtx (pause baseState) (.str "debug") "m" [] PyVal.ellipsis [] =
      .ok ⟨{ pause baseState with list_message := [debugUnit] }, []⟩ :=
  ⟨(C1_below_threshold_amended level_map sampleCtx baseState (.str "debug") "m" []
      PyVal.ellipsis [] debugUnit rfl rfl (by decide)).2.2 rfl rfl rfl,
   (C1_below_threshold_amended level_map sampleCtx (pause baseState) (.str "debug") "m" []
      PyVal.ellipsis [] debugUnit rfl rfl (by decide)).1 rfl⟩

/-- C3: a record enqueued (while paused) at or above the then-current
threshold is filtered at drain time against the threshold current at that
moment: after the threshold is raised above the record's level, unpausing
drains it with zero deliveries to any sink. -/
theorem C3_drain_time_threshold (lm : List (String × LevelDetails))
    (ctx : RuntimeCtx) (st : LoggingState) (lvl : StrOrInt) (msg : String)
    (args : List String) (mark : PyVal) (kwargs : List (String × String))
    (u : LogUnit) (T : Int)
    (hclosed : st.is_closed = false) (hpaused : st.is_paused = true)
    (hasync : st.is_async = false) (hq : st.list_message = [])
    (hbuild : build_unit lm ctx lvl msg args mark kwargs = .ok u)
    (_hge : st.level ≤ u.details.level)
    (hT1 : ALL ≤ T) (hT2 : T ≤ OFF) (hlt : u.details.level < T) :
    call lm ctx st lvl msg args mark kwargs =
      .ok ⟨{ st with list_message := [u] }, []⟩ ∧
    set_level { st with list_message := [u] } lm (.int T) =
      .ok { st with list_message := [u], level := T } ∧
    unpause { st with list_message := [u], level := T } =
      ({ st with list_message := [], level := T, is_paused := false }, []) := by
  refine ⟨?_, ?_, ?_⟩
  · have h1 := call_paused lm ctx st lvl msg args mark kwargs u hclosed hpaused hbuild
    rw [hq] at h1
    simpa using h1
  · simp [set_level, hT1, hT2]
  · simp [unpause, spark, hasync, try_call_stream, drain_loop, hlt]

/-- Witness for C3: an info-level record is enqueued while the threshold is
INFO, the threshold is then raised to WARN, and unpausing delivers nothing. -/
theorem C3_drain_time_threshold_witness :
    call level_map sampleCtx (pause baseState) (.str "info") "m" [] PyVal.ellipsis [] =
      .ok ⟨{ pause baseState with list_message := [infoUnit] }, []⟩ ∧
    set_level { pause baseState with list_message := [infoUnit] } level_map (.int 32) =
      .ok { pause baseState with list_message := [infoUnit], level := 32 } ∧
    unpause { pause baseState with list_message := [infoUnit], level := 32 } =
      ({ pause baseState with list_message := [], level := 32, is_paused := false }, []) :=
  C3_drain_time_threshold level_map sampleCtx (pause baseState) (.str "info") "m" []
    PyVal.ellipsis [] infoUnit 32 rfl rfl rfl rfl rfl (by decide) (by decide) (by decide)
    (by decide)

/-- C4: with the engine paused, a sequence of calls at or above the threshold
delivers nothing and enqueues every record in order; unpausing then delivers
all of them in the original FIFO order, each record fanned out to every
registered sink before the next, and empties the queue. -/
theorem C4_pause_unpause_fifo (lm : List (String × LevelDetails))
    (st : LoggingState) (calls : List CallArgs) (units : List LogUnit)
    (hclosed : st.is_closed = false) (hasync : st.is_async = false)
    (hq : st.list_message = [])
    (hunits : units_of_calls lm calls = .ok units)
    (hlev : ∀ u ∈ units, ¬(u.details.level < st.level)) :
    call_many lm (pause st) calls =
      .ok ({ pause st with list_message := units }, []) ∧
    (unpause { pause st with list_message := units }).2 =
      fanout st.list_stream units ∧
    (unpause { pause st with list_message := units }).1.list_message = [] := by
  refine ⟨?_, ?_, ?_⟩
  · have h1 := call_many_paused lm calls (pause st) units hclosed rfl hunits
    rw [show (pause st).list_message = st.list_message from rfl, hq] at h1
    simpa using h1
  · have h2 : unpause { pause st with list_message := units } =
        try_call_stream { pause st with list_message := units, is_paused := false } := by
      simp [unpause, spark, pause, hasync]
    rw [h2]
    exact drain_loop_events_all_pass units _ hlev
  · have h2 : unpause { pause st with list_message := units } =
        try_call_stream { pause st with list_message := units, is_paused := false } := by
      simp [unpause, spark, pause, hasync]
    rw [h2]
    exact drain_loop_message units _

/-- Witness for C4: two above-threshold calls while paused, then unpause:
both records go out in FIFO order to the standard sink and the queue ends
empty. -/
theorem C4_pause_unpause_fifo_witness :
    call_many level_map (pause baseState) [callInfo, callError] =
      .ok ({ pause baseState with list_message := [infoUnit, errorUnit] }, []) ∧
    (unpause { pause baseState with list_message := [infoUnit, errorUnit] }).2 =
      [⟨32768, infoUnit⟩, ⟨32768, errorUnit⟩] ∧
    (unpause { pause baseState with list_message := [infoUnit, errorUnit] }).1.list_message = [] :=
  C4_pause_unpause_fifo level_map baseState [callInfo, callError] [infoUnit, errorUnit]
    rfl rfl rfl rfl (by decide)

/-- C5 counterexample: on a closed engine, `set_level` succeeds (no
engine-closed error) — only `call` and `close` check the closed flag. -/
theorem C5_counterexample :
    ({ baseState with is_closed := true } : LoggingState).is_closed = true ∧
    set_level { baseState with is_closed := true } level_map (.int 32) =
      .ok { baseState with is_closed := true, level := 32 } ∧
    set_level { baseState with is_closed := true } level_map (.int 32) ≠
      .error .loggingIsClosed := by
  refine ⟨rfl, rfl, ?_⟩
  intro hcontra
  exact Except.noConfusion hcontra

/-- C5 amended: after `close()` the closed flag stays true under every
operation; a subsequent `call` or second `close` raises `LoggingIsClosed`
(the second `close` before mutating anything); but `set_level`, `set_format`,
`pause`, `unpause`, `add_stream` and `del_stream` perform no closed check and
operate normally on the closed engine. -/
theorem C5_closed_engine_amended (st : LoggingState) (h : st.is_closed = true) :
    (∀ lm ctx lvl msg args mark kwargs,
      call lm ctx st lvl msg args mark kwargs = .error .loggingIsClosed) ∧
    close st = .error .loggingIsClosed ∧
    (∀ lm n, ALL ≤ n → n ≤ OFF →
      set_level st lm (.int n) = .ok { st with level := n }) ∧
    (∀ f, set_format st f = { st with log_format := f }) ∧
    pause st = { st with is_paused := true } ∧
    (∀ s, (add_stream st s).1.is_closed = true) ∧
    (∀ s, s.associated = false → s.ident = IDENT_EMPTY →
      ¬(s.type = STANDARD ∧ exist_stdout_stream st) →
      (add_stream st s).2 = .ok st.atomic_ident) ∧
    (∀ i, (del_stream st i).1.is_closed = true) ∧
    (unpause st).1.is_closed = true := by
  refine ⟨?_, ?_, ?_, ?_, rfl, ?_, ?_, ?_, ?_⟩
  · intro lm ctx lvl msg args mark kwargs
    simp [call, h]
  · simp [close, h]
  · intro lm n h1 h2
    simp [set_level, h1, h2]
  · intro f
    rfl
  · intro s
    simp only [add_stream]
    split
    · exact h
    · split
      · exact h
      · exact h
  · intro s h1 h2 h3
    simp [add_stream, h1, h2, h3]
  · intro i
    simp only [del_stream]
    split
    · exact h
    · exact h
  · simp only [unpause, spark]
    split
    · exact h
    · unfold try_call_stream
      rw [drain_loop_closed]
      exact h

/-- Witness for C5: on a concrete closed engine, `call` and `close` raise the
engine-closed error while `set_level` quietly succeeds. -/
theorem C5_closed_engine_amended_witness :
    call level_map sampleCtx { baseState with is_closed := true } (.str "info") "m" []
      PyVal.ellipsis [] = .error .loggingIsClosed ∧
    close { baseState with is_closed := true } = .error .loggingIsClosed ∧
    set_level { baseState with is_closed := true } level_map (.int 32) =
      .ok { baseState with is_closed := true, level := 32 } :=
  ⟨(C5_closed_engine_amended { baseState with is_closed := true } rfl).1
      level_map sampleCtx (.str "info") "m" [] PyVal.ellipsis [],
   (C5_closed_engine_amended { baseState with is_closed := true } rfl).2.1,
   (C5_closed_engine_amended { baseState with is_closed := true } rfl).2.2.1
      level_map 32 (by decide) (by decide)⟩

/-- C7 counterexample: the guard `count > 32` lets a 33rd correction through:
on the template consisting of the single positional field 33 with no
arguments, the loop's correction counter reaches 33 — more than the
documented maximum of 32 — before the fallback returns the best partial
result. -/
theorem C7_counterexample :
    (secure_format_go 34 0 (lbrace ++ "33" ++ rbrace) [] []).2 = 33 ∧
    SECURE_FORMAT_MAXIMUM_NUMBER_OF_CORRECTIONS = 32 ∧
    (secure_format_go 34 0 (lbrace ++ "33" ++ rbrace) [] []).2 >
      SECURE_FORMAT_MAXIMUM_NUMBER_OF_CORRECTIONS ∧
    secure_format (lbrace ++ "33" ++ rbrace) [] [] = lbrace ++ "33" ++ rbrace := by
  refine ⟨by decide, by decide, by decide, by decide⟩

/-- C7 amended: `secure_format` is total — it always returns a string, for
every template, positional and keyword argument list (in the modeled
template language) — with at most 33 corrections (one more than the constant
32, because the guard is `count > 32`); a missing key is corrected by mapping
it to the escaped literal `\x7bkey\x7d`, an out-of-range positional index by
appending the literal `\x7b\x7d`, after which the corrected rendering is
returned; and when formatting fails for any other reason the best partial
result (the template with keyword replacements) is returned instead of
failing. -/
theorem C7_secure_format_amended (spec : String) (args : List String)
    (kwargs : List (String × String)) :
    (secure_format_go 34 0 spec args kwargs).2 ≤ 33 ∧
    (∀ k res, pyFormat spec args kwargs = .error (.keyError k) →
      pyFormat spec args (kwargs ++ [(k, lbrace ++ k ++ rbrace)]) = .ok res →
      secure_format spec args kwargs = res) ∧
    (∀ res, pyFormat spec args kwargs = .error .indexError →
      pyFormat spec (args ++ [lbrace ++ rbrace]) kwargs = .ok res →
      secure_format spec args kwargs = res) ∧
    (pyFormat spec args kwargs = .error .valueError →
      secure_format spec args kwargs = secure_format_fallback spec kwargs) := by
  refine ⟨?_, ?_, ?_, ?_⟩
  · have hb := secure_format_go_count_le 34 0 spec args kwargs
    simpa using hb
  · intro k res h1 h2
    show (secure_format_go 34 0 spec args kwargs).1 = res
    rw [show (34 : Nat) = 33 + 1 from rfl,
      secure_format_go_key 33 0 spec args kwargs k (by decide) h1,
      show (33 : Nat) = 32 + 1 from rfl,
      secure_format_go_ok 32 1 spec args _ res (by decide) h2]
  · intro res h1 h2
    show (secure_format_go 34 0 spec args kwargs).1 = res
    rw [show (34 : Nat) = 33 + 1 from rfl,
      secure_format_go_index 33 0 spec args kwargs (by decide) h1,
      show (33 : Nat) = 32 + 1 from rfl,
      secure_format_go_ok 32 1 spec _ kwargs res (by decide) h2]
  · intro h1
    show (secure_format_go 34 0 spec args kwargs).1 = secure_format_fallback spec kwargs
    rw [show (34 : Nat) = 33 + 1 from rfl,
      secure_format_go_value 33 0 spec args kwargs (by decide) h1]

/-- Witness for C7 amended: a missing key becomes the escaped literal
placeholder, an out-of-range positional index becomes the literal braces, a
malformed template falls back to the partial result, and the bound holds on
the template that exhausts it. -/
theorem C7_secure_format_amended_witness :
    secure_format ("a" ++ lbrace ++ "k" ++ rbrace) [] [] =
      "a" ++ lbrace ++ "k" ++ rbrace ∧
    secure_format (lbrace ++ rbrace) [] [] = lbrace ++ rbrace ∧
    secure_format ("x" ++ rbrace) [] [("m", "v")] =
      secure_format_fallback ("x" ++ rbrace) [("m", "v")] ∧
    (secure_format_go 34 0 (lbrace ++ "33" ++ rbrace) [] []).2 ≤ 33 :=
  ⟨(C7_secure_format_amended ("a" ++ lbrace ++ "k" ++ rbrace) [] []).2.1 "k"
      ("a" ++ lbrace ++ "k" ++ rbrace) rfl rfl,
   (C7_secure_format_amended (lbrace ++ rbrace) [] []).2.2.1 (lbrace ++ rbrace)
      rfl rfl,
   (C7_secure_format_amended ("x" ++ rbrace) [] [("m", "v")]).2.2.2 rfl,
   (C7_secure_format_amended (lbrace ++ "33" ++ rbrace) [] []).1⟩

end Logop
